import Mathlib

/-!
Shallow embedding of `src/hybrid_parallel_sim.py`.

The program simulates a 2-stage pipeline-parallel / 2-way data-parallel
training run on 4 devices.  Each device is driven by a thread that executes
`HybridTrainer.run_1f1b_schedule(rank)`: a hard-coded 1F1B instruction
sequence of `Device.forward` / `Device.backward` calls followed by
`Device.all_reduce`.  Each call appends a timed event to the device's log
(`Device.log_event`) and sleeps for the event's duration.

Timing model of the embedding: the threads share no state and never wait on
each other, so each device's trace is a pure function of its stage.  Time is
measured in centiseconds (the source's durations 0.05 s, 0.08 s, 0.02 s
become 5, 8, 2); all threads are taken to start at logical time 0 and every
`time.sleep(d)` advances that device's clock by exactly `d`.  `log_event`
stamps the current clock as the event's start and then advances the clock by
the duration, exactly as the source stamps `time.time()` before sleeping.
-/

namespace HybridSim

/-- Kind of a logged event: `Forward MB i`, `Backward MB i`, or
`All-Reduce Step s` (the source logs steps as `s+1`, 1-based). -/
inductive Ev where
  | F (mb : Nat)
  | B (mb : Nat)
  | AR (step : Nat)
deriving DecidableEq

/-- One entry of `Device.log`: the dict
`{"rank": .., "event": .., "start": .., "duration": ..}` appended by
`Device.log_event`, with times in centiseconds. -/
structure Event where
  rank : Nat
  ev : Ev
  start : Nat
  dur : Nat
deriving DecidableEq

/-- End time of an event (start + duration). -/
def Event.stop (e : Event) : Nat := e.start + e.dur

/-- State of one `Device`: identity fields from `Device.__init__`, the
`memory` accumulator, the event log, and the logical clock of its thread. -/
structure Device where
  rank : Nat
  stage : Nat
  memory : Int
  clock : Nat
  log : List Event
deriving DecidableEq

/-- `Device.log_event(event, duration)`: append the event stamped with the
current time, then sleep `duration` (advance the clock). -/
def Device.log_event (d : Device) (e : Ev) (dur : Nat) : Device :=
  { d with log := d.log ++ [⟨d.rank, e, d.clock, dur⟩], clock := d.clock + dur }

/-- Fixed duration of a forward pass: 0.05 s = 5 cs (source line 29). -/
def forwardCost : Nat := 5

/-- Fixed duration of a backward pass: 0.08 s = 8 cs (source line 35). -/
def backwardCost : Nat := 8

/-- Fixed duration of one all-reduce step: 0.02 s = 2 cs (source line 43). -/
def arStepCost : Nat := 2

/-- Per-micro-batch activation memory delta: 10 units (source lines 30, 36). -/
def activationCost : Int := 10

/-- `Device.forward(micro_batch_id)`: log a Forward event of duration 5 cs,
then `self.memory += 10`. -/
def Device.forward (d : Device) (mb : Nat) : Device :=
  let d := d.log_event (Ev.F mb) forwardCost
  { d with memory := d.memory + activationCost }

/-- `Device.backward(micro_batch_id)`: log a Backward event of duration 8 cs,
then `self.memory -= 10`. -/
def Device.backward (d : Device) (mb : Nat) : Device :=
  let d := d.log_event (Ev.B mb) backwardCost
  { d with memory := d.memory - activationCost }

/-- `Device.all_reduce()`: `steps = 2 * (2 - 1)` (hard-coded for DP size 2),
then log `All-Reduce Step s+1` for `s in range(steps)`. -/
def Device.all_reduce (d : Device) : Device :=
  let steps := 2 * (2 - 1)
  (List.range steps).foldl (fun d s => d.log_event (Ev.AR (s + 1)) arStepCost) d

/-- `HybridTrainer.micro_batches = 8`. -/
def micro_batches : Nat := 8

/-- The `device.stage == 0` branch of `HybridTrainer.run_1f1b_schedule`
(source lines 75-107): `forward(0); forward(1); backward(0); forward(2);
backward(1)`, then `for i in range(2, M): if i < M: forward(i);
if i-1 >= 0: backward(i-1)`, then `backward(M-1)`. -/
def stage0Branch (M : Nat) (d : Device) : Device :=
  let d := d.forward 0
  let d := d.forward 1
  let d := d.backward 0
  let d := d.forward 2
  let d := d.backward 1
  let d := (List.range' 2 (M - 2)).foldl
    (fun d i =>
      let d := if i < M then d.forward i else d
      if 1 ≤ i then d.backward (i - 1) else d) d
  d.backward (M - 1)

/-- The `device.stage == 1` branch of `HybridTrainer.run_1f1b_schedule`
(source lines 109-125): `forward(0); backward(0); forward(1); backward(1)`,
then `for i in range(2, M): forward(i); backward(i)`. -/
def stage1Branch (M : Nat) (d : Device) : Device :=
  let d := d.forward 0
  let d := d.backward 0
  let d := d.forward 1
  let d := d.backward 1
  (List.range' 2 (M - 2)).foldl (fun d i => (d.forward i).backward i) d

/-- `HybridTrainer.run_1f1b_schedule(rank)` acting on one device: the stage
branch followed by `device.all_reduce()` (source lines 69-128). -/
def run_1f1b_schedule (M : Nat) (d : Device) : Device :=
  let d :=
    if d.stage = 0 then stage0Branch M d
    else if d.stage = 1 then stage1Branch M d
    else d
  d.all_reduce

/-- A freshly constructed `Device(rank, stage, 4, 2)` with `memory = 0`,
empty log, and its thread's clock at 0. -/
def initDevice (rank stage : Nat) : Device := ⟨rank, stage, 0, 0, []⟩

/-- `HybridTrainer.__init__`: the 4-device topology
rank 0 → stage 0, rank 1 → stage 1, rank 2 → stage 0, rank 3 → stage 1
(pipelines 0→1 and 2→3; data-parallel groups {0,2} and {1,3}). -/
def devices : List Device :=
  [initDevice 0 0, initDevice 1 1, initDevice 2 0, initDevice 3 1]

/-- `HybridTrainer.run()`: start one thread per rank, each running
`run_1f1b_schedule`; the threads never communicate, so the result is each
device run independently from logical time 0. -/
def runAll : List Device := devices.map (run_1f1b_schedule micro_batches)

/-- The log of a given rank after the run (empty list for an absent rank). -/
def logOf (rank : Nat) : List Event :=
  ((runAll.filter (fun d => d.rank = rank)).map Device.log).flatten

/-- Is an event a Forward or a Backward (a pipeline instruction, as opposed
to an all-reduce step)? -/
def Ev.isFB : Ev → Bool
  | .F _ => true
  | .B _ => true
  | .AR _ => false

/-- The instruction sequence a device executed: the Forward/Backward events
of its log, in order. -/
def fbSeq (d : Device) : List Ev :=
  (d.log.map Event.ev).filter Ev.isFB

/-- `HybridTrainer.generate_timeline` collects `d.log` for each device in
rank order into `all_events` (source lines 148-151). -/
def allEvents : List Event := (runAll.map Device.log).flatten

/-- Stable insertion of an event into a list already sorted by start time:
the new event goes after every earlier event whose start is ≤ its own,
matching the stability of Python's `list.sort(key=lambda x: x['start'])`. -/
def insertByStart (e : Event) : List Event → List Event
  | [] => [e]
  | x :: xs => if x.start ≤ e.start then x :: insertByStart e xs else e :: x :: xs

/-- Stable sort by start time: `all_events.sort(key=lambda x: x['start'])`
(source line 154). -/
def sortByStart (l : List Event) : List Event :=
  l.foldl (fun acc e => insertByStart e acc) []

/-- The merged, time-ordered event sequence produced by
`HybridTrainer.generate_timeline`. -/
def timeline : List Event := sortByStart allEvents

/-- `t0 = all_events[0]['start']` after sorting (source line 158). -/
def t0 : Nat := (timeline.head?.map Event.start).getD 0

/-- The normalized-time view printed by `generate_timeline`: each event with
`t_rel = e['start'] - t0` (source line 167). -/
def normalized : List (Nat × Event) := timeline.map (fun e => (e.start - t0, e))

/-- Successive memory values of a device executing its Forward/Backward
sequence: the value of `self.memory` after each instruction. -/
def memValues (l : List Ev) : List Int :=
  (l.foldl
    (fun (p : Int × List Int) e =>
      match e with
      | .F _ => (p.1 + activationCost, p.2 ++ [p.1 + activationCost])
      | .B _ => (p.1 - activationCost, p.2 ++ [p.1 - activationCost])
      | .AR _ => p)
    (0, [])).2

/-- The device of a given rank after the run (ranks coincide with positions
in the `devices` list). -/
def deviceAt (rank : Nat) : Device := runAll.getD rank (initDevice rank 0)

/-- Number of Forward instructions in an instruction sequence. -/
def forwardCount (l : List Ev) : Nat :=
  l.countP fun e => match e with | .F _ => true | _ => false

/-- Number of Backward instructions in an instruction sequence. -/
def backwardCount (l : List Ev) : Nat :=
  l.countP fun e => match e with | .B _ => true | _ => false

/-- The all-reduce step events of a device's log, in order. -/
def arEvents (d : Device) : List Event := d.log.filter fun e => !e.ev.isFB

/-- The data-parallel groups of the hard-coded topology: ranks {0, 2} share
stage 0 and ranks {1, 3} share stage 1. -/
def dpGroups : List (List Nat) := [[0, 2], [1, 3]]

/-- A trace is gap-free when every event starts exactly when the previous
one ends: the device is never blocked waiting between two events. -/
def gapFree : List Event → Bool
  | [] => true
  | [_] => true
  | a :: b :: rest => (b.start == a.stop) && gapFree (b :: rest)

end HybridSim

namespace HybridSim

/-- Claim C1 (code bug evaluation): at the program's configuration
(pipeline_depth 2, micro_batch_count 8), the stage-0 device (rank 0)
executes 18 Forward/Backward instructions instead of the claimed 16:
9 Forward and 9 Backward, with Forward(2) and Backward(1) each executed
twice, because the steady-state loop re-issues the pair already emitted
explicitly before it (the source comment itself flags the loop logic). -/
theorem C1_stage0_executes_duplicates :
    (fbSeq (deviceAt 0)).length = 18
    ∧ forwardCount (fbSeq (deviceAt 0)) = 9
    ∧ backwardCount (fbSeq (deviceAt 0)) = 9
    ∧ (fbSeq (deviceAt 0)).count (Ev.F 2) = 2
    ∧ (fbSeq (deviceAt 0)).count (Ev.B 1) = 2 := by decide

/-- Claim C2 (code bug evaluation): there is no inter-stage dependency
enforcement.  Under the program's timing model, the Forward(0) event on
stage 1 (rank 1) starts at time 0, strictly before the Forward(0) event on
stage 0 (rank 0) completes at time 5: the claimed cross-stage ordering is
violated on the very first micro-batch. -/
theorem C2_stage1_forward_starts_before_stage0_completes :
    ((logOf 1).find? (fun e => e.ev == Ev.F 0)).map Event.start = some 0
    ∧ ((logOf 0).find? (fun e => e.ev == Ev.F 0)).map Event.stop = some 5
    ∧ (0 : Nat) < 5 := by decide

/-- Claim C3 (code bug evaluation): every device records exactly
2*(2-1) = 2 all-reduce step events (the count is hard-coded in
`Device.all_reduce`, not derived from group size), but there is no entry
barrier: each device's first all-reduce step starts exactly when its own
last Backward ends, i.e. it proceeds into and through the collective
immediately, with no synchronization with its data-parallel peer. -/
theorem C3_allreduce_entry_unsynchronized :
    (runAll.all fun d => (arEvents d).length == 2 * (2 - 1))
    ∧ (runAll.all fun d =>
        ((d.log.filter fun e => e.ev.isFB).getLast?).map Event.stop
          == ((arEvents d).head?).map Event.start) := by decide

/-- Claim C4 (code bug evaluation): the stage-0 device does not execute
1 warmup Forward + steady pairs + 1 cooldown Backward.  It begins with two
warmup Forwards (F0, F1 before any Backward) and duplicates the F2/B1 pair,
totalling 18 instructions; the stage-1 half of the claim does hold: rank 1
executes exactly the 8 Forward/Backward pairs back-to-back. -/
theorem C4_stage0_schedule_diverges :
    (fbSeq (deviceAt 0)).take 3 = [Ev.F 0, Ev.F 1, Ev.B 0]
    ∧ (fbSeq (deviceAt 0)).count (Ev.F 2) = 2
    ∧ (fbSeq (deviceAt 0)).length = 18
    ∧ fbSeq (deviceAt 1) =
      [Ev.F 0, Ev.B 0, Ev.F 1, Ev.B 1, Ev.F 2, Ev.B 2, Ev.F 3, Ev.B 3,
       Ev.F 4, Ev.B 4, Ev.F 5, Ev.B 5, Ev.F 6, Ev.B 6, Ev.F 7, Ev.B 7] := by decide

/-- Claim C5: for every device the last Forward/Backward instruction is a
Backward, the running memory value right after it is exactly 0, the final
memory field is 0, and the executed Forwards and Backwards balance exactly
(each adds or subtracts the same fixed activation cost). -/
theorem C5_memory_returns_to_zero :
    runAll.map Device.memory = [0, 0, 0, 0]
    ∧ (runAll.all fun d => forwardCount (fbSeq d) == backwardCount (fbSeq d))
    ∧ (runAll.all fun d => (memValues (fbSeq d)).getLastD 1 == 0)
    ∧ (runAll.all fun d =>
        match (fbSeq d).getLast? with
        | some (Ev.B _) => true
        | _ => false) := by decide

/-- Claim C6: in every device's executed instruction sequence, for every
micro-batch id i in [0, 8), Backward(i) occurs, and the position of its
first occurrence is strictly after the position of the first occurrence of
Forward(i). -/
theorem C6_backward_positioned_after_forward :
    (runAll.all fun d => (List.range micro_batches).all fun i =>
      ((fbSeq d).findIdx (· == Ev.F i) < (fbSeq d).findIdx (· == Ev.B i))
      && ((fbSeq d).findIdx (· == Ev.B i) < (fbSeq d).length)) = true := by decide

/-- Claim C7: the timeline is a permutation of all devices' events, ordered
by start time ascending with ties broken by ascending rank (Python's stable
sort applied to the rank-grouped concatenation), and the normalized view
subtracts the earliest start time, which is the minimum, so the earliest
event's offset is 0. -/
theorem C7_timeline_sorted_and_normalized :
    List.Perm timeline allEvents
    ∧ timeline.Pairwise
        (fun a b => a.start < b.start ∨ (a.start = b.start ∧ a.rank ≤ b.rank))
    ∧ normalized.map Prod.fst = timeline.map (fun e => e.start - t0)
    ∧ (allEvents.all fun e => t0 ≤ e.start)
    ∧ normalized.head?.map Prod.fst = some 0 := by decide

/-- Claim C8 (code bug evaluation): the program has no dependency waits at
all.  Every device's run is total: each trace is complete ([20, 18, 20, 18]
events for ranks 0..3) and gap-free — each event starts exactly when the
previous one ends, so no device ever blocks on a dependency, no wait can
time out, and no DependencyViolation path exists. -/
theorem C8_run_is_total_and_gap_free :
    runAll.map (fun d => d.log.length) = [20, 18, 20, 18]
    ∧ (runAll.all fun d => gapFree d.log) := by decide

/-- Claim C10: throughout every device's execution, the memory accumulator
after each Forward/Backward instruction stays within 0 ≤ memory ≤ 20 (at
most two activations of 10 units in flight, never negative). -/
theorem C10_memory_within_bounds :
    (runAll.all fun d =>
      (memValues (fbSeq d)).all fun m => decide (0 ≤ m) && decide (m ≤ 20)) = true := by
  decide

end HybridSim
